import Mathlib

/-!
Shallow embedding of the deterministic medical triage engine
(`services/api/src/api/domains/medical/rules.py` together with the data
model of `services/api/src/api/domains/medical/schemas.py`), and proofs of
the specification's claims about it.

Conventions of the embedding:
* Python `str` becomes `String`; Python substring test `a in b` becomes
  `strContains b a` (list-infix on the character lists).
* Python `float` confidence scores / thresholds / temperatures become `ℚ`
  (the concrete constants 0.2, 0.4, 0.5, 101.0, 104.0 are exact decimals).
* The ordered Python dicts become association lists kept in source order.
* `Optional[int]` / `Optional[float]` fields become `Option` fields;
  `x is not None and P(x)` becomes `optHolds x P`.
-/

namespace Triage

/-- Python's `" ".join`, or more generally `sep.join(l)`. -/
def joinWith (sep : String) : List String → String
  | [] => ""
  | [x] => x
  | x :: xs => x ++ sep ++ joinWith sep xs

/-- Python's substring test `needle in hay`. -/
def strContains (hay needle : String) : Prop :=
  needle.toList <:+: hay.toList

instance (hay needle : String) : Decidable (strContains hay needle) :=
  List.decidableInfix needle.toList hay.toList

/-- Python's `str.lower()` (ASCII case folding), as a map over the
character list.  (`String.toLower` of core is defined by well-founded
recursion and does not reduce in the kernel; this equivalent form does.) -/
def strToLower (s : String) : String := ⟨s.data.map Char.toLower⟩

/-- Python's `str` applied to a `bool` (`"True"` / `"False"`). -/
def boolStr (b : Bool) : String :=
  if b then "True" else "False"

/-- The exact rational 0.2 = 1/5 in constructor form.  The `OfScientific`
decimal literal `(0.2 : ℚ)` does not reduce in the kernel, so the
engine's constants are given in constructor form; the bridging lemmas
`q0_2_eq` etc. below show they equal the decimal literals. -/
def q0_2 : ℚ := ⟨1, 5, by decide, Nat.coprime_one_left 5⟩

/-- The exact rational 0.4 = 2/5 in constructor form. -/
def q0_4 : ℚ := ⟨2, 5, by decide, by norm_num [Nat.Coprime]⟩

/-- The exact rational 0.5 = 1/2 in constructor form. -/
def q0_5 : ℚ := ⟨1, 2, by decide, Nat.coprime_one_left 2⟩

/-- The exact rational 0.25 = 1/4 in constructor form. -/
def q0_25 : ℚ := ⟨1, 4, by decide, Nat.coprime_one_left 4⟩

/-- Python's `x is not None and p(x)` for an optional field. -/
def optHolds {α : Type} (o : Option α) (p : α → Prop) : Prop :=
  match o with
  | some v => p v
  | none => False

instance {α : Type} (o : Option α) (p : α → Prop) [DecidablePred p] :
    Decidable (optHolds o p) :=
  match o with
  | some v => if h : p v then .isTrue h else .isFalse h
  | none => .isFalse id

/-- `schemas.CriticalRedFlagType` — enumeration of critical red flags. -/
inductive CriticalRedFlagType : Type
  | SUICIDAL_IDEATION
  | SELF_HARM
  | HOMICIDAL_IDEATION
  | CANNOT_BREATHE
  | CHEST_PAIN
  | NEURO_DEFICIT
  | BLEEDING_UNCONTROLLED
  | ALTERED_CONSCIOUSNESS
  | SEVERE_PAIN
  deriving DecidableEq, Repr

/-- The `str`-enum value of a `CriticalRedFlagType` member. -/
def CriticalRedFlagType.value : CriticalRedFlagType → String
  | .SUICIDAL_IDEATION => "SUICIDAL_IDEATION"
  | .SELF_HARM => "SELF_HARM"
  | .HOMICIDAL_IDEATION => "HOMICIDAL_IDEATION"
  | .CANNOT_BREATHE => "CANNOT_BREATHE"
  | .CHEST_PAIN => "CHEST_PAIN"
  | .NEURO_DEFICIT => "NEURO_DEFICIT"
  | .BLEEDING_UNCONTROLLED => "BLEEDING_UNCONTROLLED"
  | .ALTERED_CONSCIOUSNESS => "ALTERED_CONSCIOUSNESS"
  | .SEVERE_PAIN => "SEVERE_PAIN"

/-- `schemas.RiskSignals` — risk signals with conviction scores.
Tri-state fields keep their Python string representation
(`"yes"` / `"no"` / `"unknown"`). -/
structure RiskSignals where
  suicidal_ideation : Bool := false
  suicidal_ideation_conviction : ℚ := 0
  self_harm_intent : Bool := false
  self_harm_intent_conviction : ℚ := 0
  homicidal_ideation : Bool := false
  homicidal_ideation_conviction : ℚ := 0
  can_breathe : String := "unknown"
  can_breathe_conviction : ℚ := 0
  chest_pain : String := "unknown"
  chest_pain_conviction : ℚ := 0
  neuro_deficit : String := "unknown"
  neuro_deficit_conviction : ℚ := 0
  bleeding_uncontrolled : String := "unknown"
  bleeding_uncontrolled_conviction : ℚ := 0
  pain_scale_0_10 : Option ℕ := none
  red_flags_detected : List CriticalRedFlagType := []
  missing_fields : List String := []
  deriving DecidableEq, Repr

/-- `schemas.VitalSigns` (the base-class fields `raw_input`, `confidence`,
`extracted_at` are never read by the rules and are omitted). -/
structure VitalSigns where
  heart_rate : Option ℕ := none
  blood_pressure_systolic : Option ℕ := none
  blood_pressure_diastolic : Option ℕ := none
  respiratory_rate : Option ℕ := none
  temperature_f : Option ℚ := none
  oxygen_saturation : Option ℕ := none
  deriving DecidableEq, Repr

/-- `schemas.MedicalExtraction` (base-class bookkeeping fields omitted). -/
structure MedicalExtraction where
  chief_complaint : String := ""
  symptoms : List String := []
  pain_scale : Option ℕ := none
  vitals : VitalSigns := {}
  medical_history : List String := []
  allergies : List String := []
  medications : List String := []
  onset : String := ""
  mental_status : String := "alert"
  risk_signals : RiskSignals := {}
  deriving DecidableEq, Repr

/-- `schemas.RedFlag` (= `BaseRedFlag`: name, reason, severity). -/
structure RedFlag where
  name : String
  reason : String
  severity : String := "high"
  deriving DecidableEq, Repr

/-- `schemas.TriggeredRiskFlag`. -/
structure TriggeredRiskFlag where
  flag_type : CriticalRedFlagType
  signal_value : String
  conviction : ℚ
  threshold : ℚ
  human_explanation : String
  deriving DecidableEq, Repr

/-- `schemas.MedicalAssessment` (the base-class fields `severity_score`
and `assessed_at`, which `assess` leaves at their defaults, are omitted). -/
structure MedicalAssessment where
  acuity : ℕ
  escalate : Bool
  red_flags : List RedFlag
  triggered_risk_flags : List TriggeredRiskFlag
  escalation_reason : String
  disposition : String
  summary : String
  deriving DecidableEq, Repr

/-- Python's `x is None or p(x)`: the bound holds when the field is set. -/
def optAll {α : Type} (o : Option α) (p : α → Prop) : Prop :=
  match o with
  | some v => p v
  | none => True

instance {α : Type} (o : Option α) (p : α → Prop) [DecidablePred p] :
    Decidable (optAll o p) :=
  match o with
  | some v => if h : p v then .isTrue h else .isFalse h
  | none => .isTrue trivial

/-- The pydantic range constraints on `RiskSignals` (`ge`/`le` bounds and
the tri-state literals). -/
def RiskSignals.Valid (rs : RiskSignals) : Prop :=
  0 ≤ rs.suicidal_ideation_conviction ∧ rs.suicidal_ideation_conviction ≤ 1 ∧
  0 ≤ rs.self_harm_intent_conviction ∧ rs.self_harm_intent_conviction ≤ 1 ∧
  0 ≤ rs.homicidal_ideation_conviction ∧ rs.homicidal_ideation_conviction ≤ 1 ∧
  0 ≤ rs.can_breathe_conviction ∧ rs.can_breathe_conviction ≤ 1 ∧
  0 ≤ rs.chest_pain_conviction ∧ rs.chest_pain_conviction ≤ 1 ∧
  0 ≤ rs.neuro_deficit_conviction ∧ rs.neuro_deficit_conviction ≤ 1 ∧
  0 ≤ rs.bleeding_uncontrolled_conviction ∧ rs.bleeding_uncontrolled_conviction ≤ 1 ∧
  rs.can_breathe ∈ ["yes", "no", "unknown"] ∧
  rs.chest_pain ∈ ["yes", "no", "unknown"] ∧
  rs.neuro_deficit ∈ ["yes", "no", "unknown"] ∧
  rs.bleeding_uncontrolled ∈ ["yes", "no", "unknown"] ∧
  optAll rs.pain_scale_0_10 (fun p => p ≤ 10)

instance (rs : RiskSignals) : Decidable rs.Valid := by
  unfold RiskSignals.Valid
  infer_instance

/-- The pydantic range constraints on `VitalSigns`. -/
def VitalSigns.Valid (v : VitalSigns) : Prop :=
  optAll v.heart_rate (fun x => x ≤ 300) ∧
  optAll v.blood_pressure_systolic (fun x => x ≤ 300) ∧
  optAll v.blood_pressure_diastolic (fun x => x ≤ 200) ∧
  optAll v.respiratory_rate (fun x => x ≤ 60) ∧
  optAll v.temperature_f (fun x => 80 ≤ x ∧ x ≤ 115) ∧
  optAll v.oxygen_saturation (fun x => x ≤ 100)

instance (v : VitalSigns) : Decidable v.Valid := by
  unfold VitalSigns.Valid
  infer_instance

/-- A structurally valid extraction: every pydantic field constraint of
`MedicalExtraction` and its nested models holds. -/
def MedicalExtraction.Valid (e : MedicalExtraction) : Prop :=
  optAll e.pain_scale (fun p => p ≤ 10) ∧ e.vitals.Valid ∧ e.risk_signals.Valid

instance (e : MedicalExtraction) : Decidable e.Valid := by
  unfold MedicalExtraction.Valid
  infer_instance

/-- `rules._RED_FLAG_KEYWORDS` — the keyword → reason dict, in the
source's insertion order. -/
def RED_FLAG_KEYWORDS : List (String × String) :=
  [("chest pain", "Possible cardiac event"),
   ("heart attack", "Possible cardiac event"),
   ("cardiac arrest", "Possible cardiac event"),
   ("difficulty breathing", "Respiratory distress"),
   ("shortness of breath", "Respiratory distress"),
   ("can't breathe", "Respiratory distress"),
   ("cannot breathe", "Respiratory distress"),
   ("choking", "Respiratory distress"),
   ("severe bleeding", "Hemorrhage risk"),
   ("uncontrolled bleeding", "Hemorrhage risk"),
   ("bleeding heavily", "Hemorrhage risk"),
   ("seizure", "Neurological emergency"),
   ("convulsion", "Neurological emergency"),
   ("stroke", "Possible CVA"),
   ("slurred speech", "Possible CVA"),
   ("facial drooping", "Possible CVA"),
   ("loss of consciousness", "Altered consciousness"),
   ("passed out", "Altered consciousness"),
   ("fainted", "Altered consciousness"),
   ("dying", "Patient reports imminent death"),
   ("going to die", "Patient reports imminent death"),
   ("suicidal", "Psychiatric emergency"),
   ("self-harm", "Psychiatric emergency"),
   ("kill myself", "Psychiatric emergency"),
   ("anaphylaxis", "Severe allergic reaction"),
   ("severe allergic reaction", "Severe allergic reaction"),
   ("overdose", "Possible overdose")]

/-- `rules.RISK_SIGNAL_THRESHOLDS` — per-signal conviction thresholds,
as an association list in source order. -/
def RISK_SIGNAL_THRESHOLDS : List (CriticalRedFlagType × ℚ) :=
  [(.SUICIDAL_IDEATION, q0_2),
   (.SELF_HARM, q0_2),
   (.HOMICIDAL_IDEATION, q0_4),
   (.CANNOT_BREATHE, q0_5),
   (.CHEST_PAIN, q0_5),
   (.NEURO_DEFICIT, q0_5),
   (.BLEEDING_UNCONTROLLED, q0_5)]

/-- Dict lookup `RISK_SIGNAL_THRESHOLDS[t]`; the source only ever looks up
the seven keys present in the dict, so the default is never reached. -/
def thresholdFor (t : CriticalRedFlagType) : ℚ :=
  (RISK_SIGNAL_THRESHOLDS.lookup t).getD 0

/-- `rules._RISK_FLAG_EXPLANATIONS` — human-readable explanations. -/
def RISK_FLAG_EXPLANATIONS : List (CriticalRedFlagType × String) :=
  [(.SUICIDAL_IDEATION,
    "Patient may be expressing suicidal thoughts; policy requires immediate escalation."),
   (.SELF_HARM,
    "Patient may be expressing intent to self-harm; policy requires immediate escalation."),
   (.HOMICIDAL_IDEATION,
    "Patient may be expressing intent to harm others; policy requires immediate escalation."),
   (.CANNOT_BREATHE,
    "Patient reports difficulty breathing; this is a potential emergency."),
   (.CHEST_PAIN,
    "Patient reports chest pain; cardiac emergency must be ruled out."),
   (.NEURO_DEFICIT,
    "Patient shows signs of neurological deficit; possible stroke or emergency."),
   (.BLEEDING_UNCONTROLLED,
    "Patient reports uncontrolled bleeding; hemorrhage risk.")]

/-- Dict lookup `_RISK_FLAG_EXPLANATIONS[t]`; again only the seven present
keys are ever looked up. -/
def explanationFor (t : CriticalRedFlagType) : String :=
  (RISK_FLAG_EXPLANATIONS.lookup t).getD ""

/-- `rules.evaluate_risk_signals` — evaluate risk signals against
thresholds and return triggered flags.  Each sequential
`if ...: triggered.append(...)` of the source becomes one conditional
singleton in a concatenation, preserving the emission order. -/
def evaluate_risk_signals (rs : RiskSignals) : List TriggeredRiskFlag :=
  (if rs.suicidal_ideation = true ∨
      thresholdFor .SUICIDAL_IDEATION ≤ rs.suicidal_ideation_conviction then
    [{ flag_type := .SUICIDAL_IDEATION,
       signal_value := boolStr rs.suicidal_ideation,
       conviction := rs.suicidal_ideation_conviction,
       threshold := thresholdFor .SUICIDAL_IDEATION,
       human_explanation := explanationFor .SUICIDAL_IDEATION }] else []) ++
  (if rs.self_harm_intent = true ∨
      thresholdFor .SELF_HARM ≤ rs.self_harm_intent_conviction then
    [{ flag_type := .SELF_HARM,
       signal_value := boolStr rs.self_harm_intent,
       conviction := rs.self_harm_intent_conviction,
       threshold := thresholdFor .SELF_HARM,
       human_explanation := explanationFor .SELF_HARM }] else []) ++
  (if rs.homicidal_ideation = true ∨
      thresholdFor .HOMICIDAL_IDEATION ≤ rs.homicidal_ideation_conviction then
    [{ flag_type := .HOMICIDAL_IDEATION,
       signal_value := boolStr rs.homicidal_ideation,
       conviction := rs.homicidal_ideation_conviction,
       threshold := thresholdFor .HOMICIDAL_IDEATION,
       human_explanation := explanationFor .HOMICIDAL_IDEATION }] else []) ++
  (if rs.can_breathe = "no" ∨
      thresholdFor .CANNOT_BREATHE ≤ rs.can_breathe_conviction then
    [{ flag_type := .CANNOT_BREATHE,
       signal_value := rs.can_breathe,
       conviction := rs.can_breathe_conviction,
       threshold := thresholdFor .CANNOT_BREATHE,
       human_explanation := explanationFor .CANNOT_BREATHE }] else []) ++
  (if rs.chest_pain = "yes" ∨
      thresholdFor .CHEST_PAIN ≤ rs.chest_pain_conviction then
    [{ flag_type := .CHEST_PAIN,
       signal_value := rs.chest_pain,
       conviction := rs.chest_pain_conviction,
       threshold := thresholdFor .CHEST_PAIN,
       human_explanation := explanationFor .CHEST_PAIN }] else []) ++
  (if rs.neuro_deficit = "yes" ∨
      thresholdFor .NEURO_DEFICIT ≤ rs.neuro_deficit_conviction then
    [{ flag_type := .NEURO_DEFICIT,
       signal_value := rs.neuro_deficit,
       conviction := rs.neuro_deficit_conviction,
       threshold := thresholdFor .NEURO_DEFICIT,
       human_explanation := explanationFor .NEURO_DEFICIT }] else []) ++
  (if rs.bleeding_uncontrolled = "yes" ∨
      thresholdFor .BLEEDING_UNCONTROLLED ≤ rs.bleeding_uncontrolled_conviction then
    [{ flag_type := .BLEEDING_UNCONTROLLED,
       signal_value := rs.bleeding_uncontrolled,
       conviction := rs.bleeding_uncontrolled_conviction,
       threshold := thresholdFor .BLEEDING_UNCONTROLLED,
       human_explanation := explanationFor .BLEEDING_UNCONTROLLED }] else [])

/-- The searchable text of `rules.detect_red_flags`:
`" ".join([chief_complaint.lower()] + [s.lower() for s in symptoms])`. -/
def searchableText (e : MedicalExtraction) : String :=
  joinWith " " (strToLower e.chief_complaint :: e.symptoms.map strToLower)

/-- The keyword scan of `rules.detect_red_flags`:
`for keyword, reason in _RED_FLAG_KEYWORDS.items(): if keyword in searchable: append`. -/
def keyword_flags (searchable : String) : List RedFlag :=
  RED_FLAG_KEYWORDS.filterMap fun kr =>
    if strContains searchable kr.1 then
      some { name := kr.1, reason := kr.2 } else none

/-- The dangerous-combination rule of `rules.detect_red_flags`:
chest pain + breathing problems. -/
def combo_flag (searchable : String) : List RedFlag :=
  if strContains searchable "chest pain" ∧
      (strContains searchable "shortness of breath" ∨
       strContains searchable "difficulty breathing") then
    [{ name := "chest_pain_with_sob",
       reason := "Chest pain combined with respiratory distress — high-risk cardiac" }]
  else []

/-- The altered-mental-status rule of `rules.detect_red_flags`. -/
def mental_status_flags (e : MedicalExtraction) : List RedFlag :=
  if e.mental_status = "confused" ∨ e.mental_status = "unresponsive" then
    [{ name := "altered_mental_status",
       reason := "Mental status: " ++ e.mental_status }]
  else []

/-- The vital-sign range checks of `rules.detect_red_flags` — each
independent and only evaluated when the vital is present. -/
def vital_sign_flags (vitals : VitalSigns) : List RedFlag :=
  (match vitals.heart_rate with
   | some hr => if 150 < hr then
       [{ name := "tachycardia", reason := "HR " ++ toString hr ++ " > 150" }] else []
   | none => []) ++
  (match vitals.heart_rate with
   | some hr => if hr < 40 then
       [{ name := "bradycardia", reason := "HR " ++ toString hr ++ " < 40" }] else []
   | none => []) ++
  (match vitals.oxygen_saturation with
   | some o2 => if o2 < 90 then
       [{ name := "hypoxia", reason := "SpO2 " ++ toString o2 ++ "% < 90%" }] else []
   | none => []) ++
  (match vitals.temperature_f with
   | some t => if 104 ≤ t then
       [{ name := "high_fever", reason := "Temp " ++ toString t ++ "°F >= 104°F" }] else []
   | none => []) ++
  (match vitals.blood_pressure_systolic with
   | some bp => if bp < 80 then
       [{ name := "hypotension", reason := "SBP " ++ toString bp ++ " < 80" }] else []
   | none => [])

/-- `rules.detect_red_flags` — scan an extraction for red-flag
conditions, in the source's emission order: keyword scan, dangerous
combination, altered mental status, vital-sign ranges. -/
def detect_red_flags (e : MedicalExtraction) : List RedFlag :=
  keyword_flags (searchableText e) ++
  combo_flag (searchableText e) ++
  mental_status_flags e ++
  vital_sign_flags e.vitals

/-- The fixed `life_threat_flags` set of `rules.compute_acuity`. -/
def life_threat_flags : List String :=
  ["chest_pain_with_sob", "severe bleeding", "anaphylaxis", "heart attack",
   "cardiac arrest", "dying", "going to die", "overdose"]

/-- `rules.compute_acuity` — ESI-like acuity level 1 (most urgent) to 5
(least urgent); ordered tiers, first match wins. -/
def compute_acuity (e : MedicalExtraction) (red_flags : List RedFlag) : ℕ :=
  if e.mental_status = "unresponsive" then 1
  else if ∃ f ∈ red_flags, f.name ∈ life_threat_flags then 1
  else if e.mental_status = "confused" then 2
  else if 2 ≤ red_flags.length then 2
  else if optHolds e.pain_scale (fun p => 8 ≤ p) then 2
  else if 1 ≤ red_flags.length then 3
  else if optHolds e.pain_scale (fun p => 5 ≤ p) then 3
  else if optHolds e.vitals.heart_rate (fun hr => 100 < hr ∨ hr < 50) then 3
  else if optHolds e.vitals.temperature_f (fun t => 101 ≤ t) then 3
  else if optHolds e.vitals.oxygen_saturation (fun o2 => o2 < 95) then 3
  else if 2 ≤ e.symptoms.length ∨ e.pain_scale ≠ none then 4
  else 5

/-- The conversion of a triggered risk flag to a `RedFlag` used by
`rules.assess` (name = enum value, reason = explanation, critical). -/
def riskFlagAsRedFlag (trf : TriggeredRiskFlag) : RedFlag :=
  { name := trf.flag_type.value,
    reason := trf.human_explanation,
    severity := "critical" }

/-- The combined red-flag list built by `rules.assess` before scoring:
keyword/vital flags followed by the triggered risk flags appended in
order. -/
def combined_red_flags (e : MedicalExtraction) : List RedFlag :=
  detect_red_flags e ++ (evaluate_risk_signals e.risk_signals).map riskFlagAsRedFlag

/-- `rules.assess` — run deterministic triage on an extraction. -/
def assess (e : MedicalExtraction) : MedicalAssessment :=
  let red_flags := combined_red_flags e
  let triggered_risk_flags := evaluate_risk_signals e.risk_signals
  let acuity := compute_acuity e red_flags
  let escalate_by_acuity := decide (acuity ≤ 2)
  let escalate_by_risk := decide (0 < triggered_risk_flags.length)
  let escalate := escalate_by_acuity || escalate_by_risk
  let acuity := if escalate_by_risk = true ∧ 2 < acuity then 2 else acuity
  let disposition :=
    if escalate = true then "escalate"
    else if 4 ≤ acuity ∧ red_flags = [] then "discharge"
    else "continue"
  let flag_names := red_flags.map fun f => f.name
  let summary_parts :=
    ["ESI-" ++ toString acuity] ++
    (if red_flags = [] then [] else ["red flags: " ++ joinWith ", " flag_names]) ++
    (if escalate = true then ["ESCALATE"] else [])
  let escalation_reason :=
    if triggered_risk_flags = [] then ""
    else joinWith " " (triggered_risk_flags.map fun trf => trf.human_explanation)
  { acuity := acuity,
    escalate := escalate,
    red_flags := red_flags,
    triggered_risk_flags := triggered_risk_flags,
    escalation_reason := escalation_reason,
    disposition := disposition,
    summary := joinWith " | " summary_parts }

/-! ### Decision-tier predicates of `compute_acuity`

The grouped first-match conditions of the five tiers, used to state and
prove the tier characterisation. -/

/-- ESI-1 condition: unresponsive, or a life-threat flag present. -/
def tier1 (e : MedicalExtraction) (fl : List RedFlag) : Prop :=
  e.mental_status = "unresponsive" ∨ ∃ f ∈ fl, f.name ∈ life_threat_flags

/-- ESI-2 condition: confused, or at least two red flags, or severe pain. -/
def tier2 (e : MedicalExtraction) (fl : List RedFlag) : Prop :=
  e.mental_status = "confused" ∨ 2 ≤ fl.length ∨
    optHolds e.pain_scale (fun p => 8 ≤ p)

/-- ESI-3 condition: any red flag, moderate pain, or abnormal vitals. -/
def tier3 (e : MedicalExtraction) (fl : List RedFlag) : Prop :=
  1 ≤ fl.length ∨ optHolds e.pain_scale (fun p => 5 ≤ p) ∨
    optHolds e.vitals.heart_rate (fun hr => 100 < hr ∨ hr < 50) ∨
    optHolds e.vitals.temperature_f (fun t => 101 ≤ t) ∨
    optHolds e.vitals.oxygen_saturation (fun o2 => o2 < 95)

/-- ESI-4 condition: at least two symptoms, or a pain scale reported. -/
def tier4 (e : MedicalExtraction) : Prop :=
  2 ≤ e.symptoms.length ∨ e.pain_scale ≠ none

instance (e : MedicalExtraction) (fl : List RedFlag) : Decidable (tier1 e fl) :=
  inferInstanceAs (Decidable (_ ∨ _))

instance (e : MedicalExtraction) (fl : List RedFlag) : Decidable (tier2 e fl) :=
  inferInstanceAs (Decidable (_ ∨ _))

instance (e : MedicalExtraction) (fl : List RedFlag) : Decidable (tier3 e fl) :=
  inferInstanceAs (Decidable (_ ∨ _))

instance (e : MedicalExtraction) : Decidable (tier4 e) :=
  inferInstanceAs (Decidable (_ ∨ _))

/-! ### Specification-side definitions

These follow the spec's words, not the source, and exist only to be
compared with the source-derived definitions above. -/

/-- The risk-signal table as the spec states it: per signal, the trigger
condition (danger indicator set OR conviction ≥ the tabulated threshold)
paired with the flag to emit, in fixed table order.  This definition
follows the spec's table, with the thresholds written as the literal
constants 0.2, 0.2, 0.4, 0.5, 0.5, 0.5, 0.5. -/
def risk_signal_spec_table (rs : RiskSignals) : List (Bool × TriggeredRiskFlag) :=
  [(rs.suicidal_ideation || decide ((0.2 : ℚ) ≤ rs.suicidal_ideation_conviction),
    { flag_type := .SUICIDAL_IDEATION,
      signal_value := boolStr rs.suicidal_ideation,
      conviction := rs.suicidal_ideation_conviction,
      threshold := 0.2,
      human_explanation :=
        "Patient may be expressing suicidal thoughts; policy requires immediate escalation." }),
   (rs.self_harm_intent || decide ((0.2 : ℚ) ≤ rs.self_harm_intent_conviction),
    { flag_type := .SELF_HARM,
      signal_value := boolStr rs.self_harm_intent,
      conviction := rs.self_harm_intent_conviction,
      threshold := 0.2,
      human_explanation :=
        "Patient may be expressing intent to self-harm; policy requires immediate escalation." }),
   (rs.homicidal_ideation || decide ((0.4 : ℚ) ≤ rs.homicidal_ideation_conviction),
    { flag_type := .HOMICIDAL_IDEATION,
      signal_value := boolStr rs.homicidal_ideation,
      conviction := rs.homicidal_ideation_conviction,
      threshold := 0.4,
      human_explanation :=
        "Patient may be expressing intent to harm others; policy requires immediate escalation." }),
   (decide (rs.can_breathe = "no") || decide ((0.5 : ℚ) ≤ rs.can_breathe_conviction),
    { flag_type := .CANNOT_BREATHE,
      signal_value := rs.can_breathe,
      conviction := rs.can_breathe_conviction,
      threshold := 0.5,
      human_explanation :=
        "Patient reports difficulty breathing; this is a potential emergency." }),
   (decide (rs.chest_pain = "yes") || decide ((0.5 : ℚ) ≤ rs.chest_pain_conviction),
    { flag_type := .CHEST_PAIN,
      signal_value := rs.chest_pain,
      conviction := rs.chest_pain_conviction,
      threshold := 0.5,
      human_explanation :=
        "Patient reports chest pain; cardiac emergency must be ruled out." }),
   (decide (rs.neuro_deficit = "yes") || decide ((0.5 : ℚ) ≤ rs.neuro_deficit_conviction),
    { flag_type := .NEURO_DEFICIT,
      signal_value := rs.neuro_deficit,
      conviction := rs.neuro_deficit_conviction,
      threshold := 0.5,
      human_explanation :=
        "Patient shows signs of neurological deficit; possible stroke or emergency." }),
   (decide (rs.bleeding_uncontrolled = "yes") ||
      decide ((0.5 : ℚ) ≤ rs.bleeding_uncontrolled_conviction),
    { flag_type := .BLEEDING_UNCONTROLLED,
      signal_value := rs.bleeding_uncontrolled,
      conviction := rs.bleeding_uncontrolled_conviction,
      threshold := 0.5,
      human_explanation :=
        "Patient reports uncontrolled bleeding; hemorrhage risk." })]

/-- The risk-signal evaluator as the spec states it: keep each table row
whose trigger condition holds, in table order. -/
def evaluate_risk_signals_spec (rs : RiskSignals) : List TriggeredRiskFlag :=
  (risk_signal_spec_table rs).filterMap fun row =>
    if row.1 = true then some row.2 else none

/-- The spec's "chest-pain keyword" group: the cardiac keywords of the
keyword table that express chest pain. -/
def chest_pain_keywords : List String := ["chest pain"]

/-- The spec's "breathing-distress keyword" group: the keywords of the
keyword table whose reason is "Respiratory distress". -/
def breathing_distress_keywords : List String :=
  ["difficulty breathing", "shortness of breath", "can't breathe",
   "cannot breathe", "choking"]

/-! ### Input transformers used by the monotonicity claim -/

/-- Append one more symptom to the symptoms list. -/
def addSymptom (e : MedicalExtraction) (s : String) : MedicalExtraction :=
  { e with symptoms := e.symptoms ++ [s] }

/-- One of the seven evaluated risk signals. -/
inductive RiskSignalKind : Type
  | suicidal | selfHarm | homicidal | canBreathe | chestPain | neuroDeficit | bleeding
  deriving DecidableEq, Repr

/-- The flag type evaluated for each risk-signal kind. -/
def RiskSignalKind.flagType : RiskSignalKind → CriticalRedFlagType
  | .suicidal => .SUICIDAL_IDEATION
  | .selfHarm => .SELF_HARM
  | .homicidal => .HOMICIDAL_IDEATION
  | .canBreathe => .CANNOT_BREATHE
  | .chestPain => .CHEST_PAIN
  | .neuroDeficit => .NEURO_DEFICIT
  | .bleeding => .BLEEDING_UNCONTROLLED

/-- Set the conviction score of one risk signal, leaving all other
fields untouched. -/
def setConviction (rs : RiskSignals) (k : RiskSignalKind) (c : ℚ) : RiskSignals :=
  match k with
  | .suicidal => { rs with suicidal_ideation_conviction := c }
  | .selfHarm => { rs with self_harm_intent_conviction := c }
  | .homicidal => { rs with homicidal_ideation_conviction := c }
  | .canBreathe => { rs with can_breathe_conviction := c }
  | .chestPain => { rs with chest_pain_conviction := c }
  | .neuroDeficit => { rs with neuro_deficit_conviction := c }
  | .bleeding => { rs with bleeding_uncontrolled_conviction := c }

/-- Set the conviction score of one risk signal of an extraction. -/
def setConvictionE (e : MedicalExtraction) (k : RiskSignalKind) (c : ℚ) :
    MedicalExtraction :=
  { e with risk_signals := setConviction e.risk_signals k c }

/-! ### Concrete extractions used as witnesses and counterexamples -/

/-- An all-default extraction (no complaint, no symptoms, no vitals,
all risk signals unknown/false with conviction 0). -/
def exPlain : MedicalExtraction := {}

/-- Scenario B of the spec: unresponsive patient, all else default. -/
def exUnresponsive : MedicalExtraction := { mental_status := "unresponsive" }

/-- Scenario E of the spec: suicidal-ideation conviction 0.25,
indicator false, no keywords. -/
def exRisk : MedicalExtraction :=
  { risk_signals := { suicidal_ideation_conviction := q0_25 } }

/-- Scenario A of the spec: chest pain plus shortness of breath. -/
def exChestSob : MedicalExtraction :=
  { chief_complaint := "chest pain", symptoms := ["shortness of breath"] }

/-- A complaint containing the chest-pain keyword and the
breathing-distress keyword "choking". -/
def exChestChoking : MedicalExtraction :=
  { chief_complaint := "chest pain and choking" }

/-- Scenario D of the spec: pain scale 6, nothing else. -/
def exPain6 : MedicalExtraction := { pain_scale := some 6 }

open List

/-! ### Generic helper lemmas -/

theorem q0_2_eq : q0_2 = 0.2 := by
  rw [q0_2, Rat.mk'_eq_divInt]
  norm_num [Rat.divInt_eq_div]

theorem q0_4_eq : q0_4 = 0.4 := by
  rw [q0_4, Rat.mk'_eq_divInt]
  norm_num [Rat.divInt_eq_div]

theorem q0_5_eq : q0_5 = 0.5 := by
  rw [q0_5, Rat.mk'_eq_divInt]
  norm_num [Rat.divInt_eq_div]

theorem q0_25_eq : q0_25 = 0.25 := by
  rw [q0_25, Rat.mk'_eq_divInt]
  norm_num [Rat.divInt_eq_div]

theorem eq_of_mem_ite_singleton {α : Type} {p : Prop} [Decidable p] {x t : α}
    (h : t ∈ (if p then [x] else [])) : t = x := by
  split_ifs at h with hp
  · simpa using h
  · simp at h

theorem holds_of_mem_ite_singleton {α : Type} {p : Prop} [Decidable p] {x t : α}
    (h : t ∈ (if p then [x] else [])) : p := by
  split_ifs at h with hp
  · exact hp
  · simp at h

theorem ite_singleton_sublist {α : Type} {p q : Prop} [Decidable p] [Decidable q]
    (x : α) (h : p → q) : (if p then [x] else []) <+ (if q then [x] else []) := by
  split_ifs with hp hq
  · exact Sublist.refl _
  · exact absurd (h hp) hq
  · exact nil_sublist _
  · exact Sublist.refl _

theorem ite_singleton_sublist_singleton {α : Type} {p : Prop} [Decidable p]
    (x : α) : (if p then [x] else []) <+ [x] := by
  split_ifs
  · exact Sublist.refl _
  · exact nil_sublist _

theorem filterMap_if_sublist {α β : Type} (l : List α) (p q : α → Prop)
    [DecidablePred p] [DecidablePred q] (g : α → β) (hpq : ∀ a, p a → q a) :
    (l.filterMap fun a => if p a then some (g a) else none) <+
      (l.filterMap fun a => if q a then some (g a) else none) := by
  induction l with
  | nil => simp
  | cons x xs ih =>
    rw [List.filterMap_cons, List.filterMap_cons]
    by_cases hp : p x
    · rw [if_pos hp, if_pos (hpq x hp)]
      exact ih.cons₂ (g x)
    · rw [if_neg hp]
      by_cases hq : q x
      · rw [if_pos hq]
        exact ih.cons (g x)
      · rw [if_neg hq]
        exact ih

theorem name_mem_ite_singleton {p : Prop} [Decidable p] (x : RedFlag) (n : String) :
    n ∈ (List.map RedFlag.name (if p then [x] else [])) ↔ p ∧ n = x.name := by
  split_ifs with h <;> simp [h, eq_comm]

theorem joinWith_cons_cons (sep x y : String) (ys : List String) :
    joinWith sep (x :: y :: ys) = x ++ sep ++ joinWith sep (y :: ys) := rfl

theorem joinWith_append_singleton (sep : String) :
    ∀ (x : String) (l : List String) (y : String),
      joinWith sep (x :: (l ++ [y])) = joinWith sep (x :: l) ++ sep ++ y
  | _, [], _ => rfl
  | x, z :: zs, y => by
    rw [List.cons_append, joinWith_cons_cons, joinWith_cons_cons,
      joinWith_append_singleton sep z zs y]
    simp [String.append_assoc]

theorem String.eq_empty_of_data_eq_nil {s : String} (h : s.data = []) : s = "" :=
  String.ext_iff.mpr h

theorem joinWith_ne_empty (sep : String) :
    ∀ l : List String, l ≠ [] → (∀ x ∈ l, x ≠ "") → joinWith sep l ≠ ""
  | [], h, _ => absurd rfl h
  | [x], _, hx => by simpa using hx x (by simp)
  | x :: y :: ys, _, hx => by
    intro hcontr
    rw [joinWith_cons_cons] at hcontr
    have hdata : (x.data ++ sep.data) ++ (joinWith sep (y :: ys)).data = [] := by
      have := congrArg String.data hcontr
      simpa [String.data_append] using this
    have hx0 : x.data = [] := by
      rcases List.append_eq_nil.mp hdata with ⟨h1, -⟩
      exact (List.append_eq_nil.mp h1).1
    exact hx x (by simp) (String.eq_empty_of_data_eq_nil hx0)

/-! ### Search-string lemmas -/

theorem strContains_append_left {a k : String} (b : String)
    (h : strContains a k) : strContains (a ++ b) k := by
  unfold strContains at h ⊢
  have : a.toList <+: (a ++ b).toList := by
    simp only [String.toList, String.data_append]
    exact List.prefix_append a.data b.data
  exact h.trans this.isInfix

theorem searchableText_addSymptom (e : MedicalExtraction) (s : String) :
    searchableText (addSymptom e s) = searchableText e ++ " " ++ strToLower s := by
  unfold searchableText addSymptom
  show joinWith " " (strToLower e.chief_complaint :: (e.symptoms ++ [s]).map strToLower) = _
  rw [List.map_append, List.map_singleton, joinWith_append_singleton]

theorem strContains_addSymptom {e : MedicalExtraction} {k : String} (s : String)
    (h : strContains (searchableText e) k) :
    strContains (searchableText (addSymptom e s)) k := by
  rw [searchableText_addSymptom]
  exact strContains_append_left _ (strContains_append_left _ h)

/-! ### Red-flag detector lemmas -/

theorem keyword_flags_sublist {s s' : String}
    (h : ∀ k, strContains s k → strContains s' k) :
    keyword_flags s <+ keyword_flags s' := by
  unfold keyword_flags
  exact filterMap_if_sublist RED_FLAG_KEYWORDS _ _
    (fun kr => ({ name := kr.1, reason := kr.2 } : RedFlag)) (fun kr hk => h kr.1 hk)

theorem combo_flag_sublist {s s' : String}
    (h : ∀ k, strContains s k → strContains s' k) :
    combo_flag s <+ combo_flag s' := by
  unfold combo_flag
  exact ite_singleton_sublist _
    (fun hc => ⟨h _ hc.1, hc.2.imp (h _) (h _)⟩)

theorem detect_red_flags_sublist_addSymptom (e : MedicalExtraction) (s : String) :
    detect_red_flags e <+ detect_red_flags (addSymptom e s) := by
  unfold detect_red_flags
  have hmono : ∀ k, strContains (searchableText e) k →
      strContains (searchableText (addSymptom e s)) k :=
    fun _ => strContains_addSymptom s
  have hmental : mental_status_flags (addSymptom e s) = mental_status_flags e := rfl
  have hvitals : vital_sign_flags (addSymptom e s).vitals = vital_sign_flags e.vitals := rfl
  rw [hmental, hvitals]
  exact (((keyword_flags_sublist hmono).append
    (combo_flag_sublist hmono)).append (Sublist.refl _)).append (Sublist.refl _)

theorem mem_keyword_flags_name {s n : String}
    (h : n ∈ (keyword_flags s).map RedFlag.name) :
    n ∈ RED_FLAG_KEYWORDS.map Prod.fst := by
  simp only [keyword_flags, List.mem_map, List.mem_filterMap] at h
  obtain ⟨f, ⟨kr, hkr, hf⟩, hn⟩ := h
  split_ifs at hf with hc
  cases hf
  exact List.mem_map.mpr ⟨kr, hkr, hn⟩

theorem mem_combo_flag_name {s n : String}
    (h : n ∈ (combo_flag s).map RedFlag.name) : n = "chest_pain_with_sob" := by
  unfold combo_flag at h
  rw [name_mem_ite_singleton] at h
  exact h.2

theorem mem_mental_status_flags_name {e : MedicalExtraction} {n : String}
    (h : n ∈ (mental_status_flags e).map RedFlag.name) :
    n = "altered_mental_status" := by
  unfold mental_status_flags at h
  rw [name_mem_ite_singleton] at h
  exact h.2

theorem mem_detect_name_iff (e : MedicalExtraction) (n : String) :
    n ∈ (detect_red_flags e).map RedFlag.name ↔
      (n ∈ (keyword_flags (searchableText e)).map RedFlag.name ∨
       n ∈ (combo_flag (searchableText e)).map RedFlag.name ∨
       n ∈ (mental_status_flags e).map RedFlag.name ∨
       n ∈ (vital_sign_flags e.vitals).map RedFlag.name) := by
  unfold detect_red_flags
  simp [List.map_append, List.mem_append]

theorem mem_detect_vital_name (e : MedicalExtraction) {n : String}
    (hkw : n ∉ RED_FLAG_KEYWORDS.map Prod.fst)
    (hcombo : n ≠ "chest_pain_with_sob")
    (hmental : n ≠ "altered_mental_status") :
    n ∈ (detect_red_flags e).map RedFlag.name ↔
      n ∈ (vital_sign_flags e.vitals).map RedFlag.name := by
  rw [mem_detect_name_iff]
  constructor
  · rintro (h | h | h | h)
    · exact absurd (mem_keyword_flags_name h) hkw
    · exact absurd (mem_combo_flag_name h) hcombo
    · exact absurd (mem_mental_status_flags_name h) hmental
    · exact h
  · exact fun h => Or.inr (Or.inr (Or.inr h))

theorem vital_sign_flags_names (v : VitalSigns) :
    ("tachycardia" ∈ (vital_sign_flags v).map RedFlag.name ↔
      optHolds v.heart_rate (fun hr => 150 < hr)) ∧
    ("bradycardia" ∈ (vital_sign_flags v).map RedFlag.name ↔
      optHolds v.heart_rate (fun hr => hr < 40)) ∧
    ("hypoxia" ∈ (vital_sign_flags v).map RedFlag.name ↔
      optHolds v.oxygen_saturation (fun o2 => o2 < 90)) ∧
    ("high_fever" ∈ (vital_sign_flags v).map RedFlag.name ↔
      optHolds v.temperature_f (fun t => 104 ≤ t)) ∧
    ("hypotension" ∈ (vital_sign_flags v).map RedFlag.name ↔
      optHolds v.blood_pressure_systolic (fun bp => bp < 80)) := by
  obtain ⟨hr, bps, _, _, t, o2⟩ := v
  unfold vital_sign_flags
  cases hr <;> cases o2 <;> cases t <;> cases bps <;>
    simp [optHolds, name_mem_ite_singleton, List.map_append, List.mem_append,
      and_assoc]

/-! ### Assessment composer projection lemmas -/

theorem assess_red_flags (e : MedicalExtraction) :
    (assess e).red_flags = combined_red_flags e := rfl

theorem assess_triggered (e : MedicalExtraction) :
    (assess e).triggered_risk_flags = evaluate_risk_signals e.risk_signals := rfl

theorem assess_acuity (e : MedicalExtraction) :
    (assess e).acuity =
      if 0 < (evaluate_risk_signals e.risk_signals).length ∧
          2 < compute_acuity e (combined_red_flags e)
      then 2 else compute_acuity e (combined_red_flags e) := by
  show (if decide (0 < (evaluate_risk_signals e.risk_signals).length) = true ∧
          2 < compute_acuity e (combined_red_flags e)
        then 2 else compute_acuity e (combined_red_flags e)) = _
  simp only [decide_eq_true_eq]

theorem assess_escalate_iff (e : MedicalExtraction) :
    (assess e).escalate = true ↔
      (compute_acuity e (combined_red_flags e) ≤ 2 ∨
       evaluate_risk_signals e.risk_signals ≠ []) := by
  show (decide (compute_acuity e (combined_red_flags e) ≤ 2) ||
        decide (0 < (evaluate_risk_signals e.risk_signals).length)) = true ↔ _
  simp [List.length_pos]

theorem assess_disposition (e : MedicalExtraction) :
    (assess e).disposition =
      if (assess e).escalate = true then "escalate"
      else if 4 ≤ (assess e).acuity ∧ combined_red_flags e = [] then "discharge"
      else "continue" := rfl

theorem assess_escalation_reason (e : MedicalExtraction) :
    (assess e).escalation_reason =
      if evaluate_risk_signals e.risk_signals = [] then ""
      else joinWith " "
        ((evaluate_risk_signals e.risk_signals).map fun trf => trf.human_explanation) :=
  rfl

/-! ### Acuity-scorer tier characterisation -/

theorem compute_acuity_eq (e : MedicalExtraction) (fl : List RedFlag) :
    compute_acuity e fl =
      if tier1 e fl then 1 else if tier2 e fl then 2
      else if tier3 e fl then 3 else if tier4 e then 4 else 5 := by
  unfold compute_acuity tier1 tier2 tier3 tier4
  by_cases h1 : e.mental_status = "unresponsive"
  · simp [h1]
  by_cases h2 : ∃ f ∈ fl, f.name ∈ life_threat_flags
  · simp [h1, h2]
  by_cases h3 : e.mental_status = "confused"
  · simp [h1, h2, h3]
  by_cases h4 : 2 ≤ fl.length
  · simp [h1, h2, h3, h4]
  by_cases h5 : optHolds e.pain_scale fun p => 8 ≤ p
  · simp [h1, h2, h3, h4, h5]
  by_cases h6 : 1 ≤ fl.length
  · simp [h1, h2, h3, h4, h5, h6]
  by_cases h7 : optHolds e.pain_scale fun p => 5 ≤ p
  · simp [h1, h2, h3, h4, h5, h6, h7]
  by_cases h8 : optHolds e.vitals.heart_rate fun hr => 100 < hr ∨ hr < 50
  · simp [h1, h2, h3, h4, h5, h6, h7, h8]
  by_cases h9 : optHolds e.vitals.temperature_f fun t => 101 ≤ t
  · simp [h1, h2, h3, h4, h5, h6, h7, h8, h9]
  by_cases h10 : optHolds e.vitals.oxygen_saturation fun o2 => o2 < 95
  · simp [h1, h2, h3, h4, h5, h6, h7, h8, h9, h10]
  by_cases h11 : 2 ≤ e.symptoms.length ∨ e.pain_scale ≠ none
  · simp [h1, h2, h3, h4, h5, h6, h7, h8, h9, h10, h11]
  simp [h1, h2, h3, h4, h5, h6, h7, h8, h9, h10, h11]

theorem compute_acuity_of_tier1 {e : MedicalExtraction} {fl : List RedFlag}
    (h : tier1 e fl) : compute_acuity e fl = 1 := by
  rw [compute_acuity_eq]
  simp [h]

theorem compute_acuity_le_of_tier2 {e : MedicalExtraction} {fl : List RedFlag}
    (h : tier2 e fl) : compute_acuity e fl ≤ 2 := by
  rw [compute_acuity_eq]
  by_cases h1 : tier1 e fl <;> simp [h1, h]

theorem compute_acuity_le_of_tier3 {e : MedicalExtraction} {fl : List RedFlag}
    (h : tier3 e fl) : compute_acuity e fl ≤ 3 := by
  rw [compute_acuity_eq]
  by_cases h1 : tier1 e fl <;> by_cases h2 : tier2 e fl <;> simp [h1, h2, h]

theorem compute_acuity_le_of_tier4 {e : MedicalExtraction} {fl : List RedFlag}
    (h : tier4 e) : compute_acuity e fl ≤ 4 := by
  rw [compute_acuity_eq]
  split_ifs with h1 h2 h3 <;> omega

theorem compute_acuity_le_five (e : MedicalExtraction) (fl : List RedFlag) :
    compute_acuity e fl ≤ 5 := by
  rw [compute_acuity_eq]
  split_ifs <;> omega

theorem compute_acuity_pos (e : MedicalExtraction) (fl : List RedFlag) :
    1 ≤ compute_acuity e fl := by
  rw [compute_acuity_eq]
  split_ifs <;> omega

theorem two_le_compute_acuity {e : MedicalExtraction} {fl : List RedFlag}
    (h1 : ¬ tier1 e fl) : 2 ≤ compute_acuity e fl := by
  rw [compute_acuity_eq, if_neg h1]
  split_ifs <;> omega

theorem three_le_compute_acuity {e : MedicalExtraction} {fl : List RedFlag}
    (h1 : ¬ tier1 e fl) (h2 : ¬ tier2 e fl) : 3 ≤ compute_acuity e fl := by
  rw [compute_acuity_eq, if_neg h1, if_neg h2]
  split_ifs <;> omega

theorem four_le_compute_acuity {e : MedicalExtraction} {fl : List RedFlag}
    (h1 : ¬ tier1 e fl) (h2 : ¬ tier2 e fl) (h3 : ¬ tier3 e fl) :
    4 ≤ compute_acuity e fl := by
  rw [compute_acuity_eq, if_neg h1, if_neg h2, if_neg h3]
  split_ifs <;> omega

theorem compute_acuity_eq_five {e : MedicalExtraction} {fl : List RedFlag}
    (h1 : ¬ tier1 e fl) (h2 : ¬ tier2 e fl) (h3 : ¬ tier3 e fl)
    (h4 : ¬ tier4 e) : compute_acuity e fl = 5 := by
  rw [compute_acuity_eq, if_neg h1, if_neg h2, if_neg h3, if_neg h4]

theorem compute_acuity_mono {e e' : MedicalExtraction} {F G : List RedFlag}
    (hms : e'.mental_status = e.mental_status)
    (hp : e'.pain_scale = e.pain_scale)
    (hv : e'.vitals = e.vitals)
    (hsym : e.symptoms.length ≤ e'.symptoms.length)
    (hsubset : ∀ f ∈ F, f ∈ G)
    (hlen : F.length ≤ G.length) :
    compute_acuity e' G ≤ compute_acuity e F := by
  have m1 : tier1 e F → tier1 e' G := by
    unfold tier1
    rw [hms]
    rintro (h | ⟨f, hf, hn⟩)
    · exact Or.inl h
    · exact Or.inr ⟨f, hsubset f hf, hn⟩
  have m2 : tier2 e F → tier2 e' G := by
    unfold tier2
    rw [hms, hp]
    rintro (h | h | h)
    · exact Or.inl h
    · exact Or.inr (Or.inl (le_trans h hlen))
    · exact Or.inr (Or.inr h)
  have m3 : tier3 e F → tier3 e' G := by
    unfold tier3
    rw [hp, hv]
    rintro (h | h)
    · exact Or.inl (le_trans h hlen)
    · exact Or.inr h
  have m4 : tier4 e → tier4 e' := by
    unfold tier4
    rw [hp]
    rintro (h | h)
    · exact Or.inl (le_trans h hsym)
    · exact Or.inr h
  by_cases h1 : tier1 e F
  · rw [compute_acuity_of_tier1 h1, compute_acuity_of_tier1 (m1 h1)]
  by_cases h2 : tier2 e F
  · exact le_trans (compute_acuity_le_of_tier2 (m2 h2)) (two_le_compute_acuity h1)
  by_cases h3 : tier3 e F
  · exact le_trans (compute_acuity_le_of_tier3 (m3 h3))
      (three_le_compute_acuity h1 h2)
  by_cases h4 : tier4 e
  · exact le_trans (compute_acuity_le_of_tier4 (m4 h4))
      (four_le_compute_acuity h1 h2 h3)
  rw [compute_acuity_eq_five h1 h2 h3 h4]
  exact compute_acuity_le_five e' G

/-! ### Risk-signal evaluator lemmas -/

theorem evaluate_explanation_ne_empty (rs : RiskSignals) :
    ∀ t ∈ evaluate_risk_signals rs, t.human_explanation ≠ "" := by
  intro t ht
  unfold evaluate_risk_signals at ht
  simp only [List.mem_append] at ht
  rcases ht with ((((((h | h) | h) | h) | h) | h) | h)
  · rw [eq_of_mem_ite_singleton h]
    exact (by decide : explanationFor CriticalRedFlagType.SUICIDAL_IDEATION ≠ "")
  · rw [eq_of_mem_ite_singleton h]
    exact (by decide : explanationFor CriticalRedFlagType.SELF_HARM ≠ "")
  · rw [eq_of_mem_ite_singleton h]
    exact (by decide : explanationFor CriticalRedFlagType.HOMICIDAL_IDEATION ≠ "")
  · rw [eq_of_mem_ite_singleton h]
    exact (by decide : explanationFor CriticalRedFlagType.CANNOT_BREATHE ≠ "")
  · rw [eq_of_mem_ite_singleton h]
    exact (by decide : explanationFor CriticalRedFlagType.CHEST_PAIN ≠ "")
  · rw [eq_of_mem_ite_singleton h]
    exact (by decide : explanationFor CriticalRedFlagType.NEURO_DEFICIT ≠ "")
  · rw [eq_of_mem_ite_singleton h]
    exact (by decide : explanationFor CriticalRedFlagType.BLEEDING_UNCONTROLLED ≠ "")

theorem evaluate_setConviction_map_sublist (rs : RiskSignals) (k : RiskSignalKind)
    (c : ℚ) (hc : thresholdFor k.flagType ≤ c) :
    (evaluate_risk_signals rs).map riskFlagAsRedFlag <+
      (evaluate_risk_signals (setConviction rs k c)).map riskFlagAsRedFlag := by
  cases k <;>
    simp only [evaluate_risk_signals, setConviction, List.map_append,
      apply_ite (List.map riskFlagAsRedFlag), List.map_cons, List.map_nil,
      riskFlagAsRedFlag, CriticalRedFlagType.value]
  all_goals
    refine ((((((ite_singleton_sublist _ ?_).append
      (ite_singleton_sublist _ ?_)).append
      (ite_singleton_sublist _ ?_)).append
      (ite_singleton_sublist _ ?_)).append
      (ite_singleton_sublist _ ?_)).append
      (ite_singleton_sublist _ ?_)).append
      (ite_singleton_sublist _ ?_) <;>
    intro hcond <;>
    first
      | exact hcond
      | exact Or.inr hc

theorem evaluate_setConviction_ne_nil (rs : RiskSignals) (k : RiskSignalKind)
    (c : ℚ) (hc : thresholdFor k.flagType ≤ c) :
    evaluate_risk_signals (setConviction rs k c) ≠ [] := by
  cases k <;>
    simp only [RiskSignalKind.flagType] at hc <;>
    intro hcontr <;>
    simp [evaluate_risk_signals, setConviction] at hcontr <;>
    exact (not_lt.mpr hc) (by tauto)

/-! ### The claims -/

/-- C1: for every structurally valid `MedicalExtraction` `e`, the
`Assessment` returned by `assess` satisfies `escalate = true` if and only
if its own `acuity` is at most 2 or its own `triggered_risk_flags` list
is non-empty. -/
theorem escalation_equivalence (e : MedicalExtraction) (_hv : e.Valid) :
    (assess e).escalate = true ↔
      ((assess e).acuity ≤ 2 ∨ (assess e).triggered_risk_flags ≠ []) := by
  rw [assess_escalate_iff, assess_acuity, assess_triggered]
  by_cases hr : evaluate_risk_signals e.risk_signals = []
  · simp [hr]
  · simp [hr]

/-- Witness for C1 at the all-default extraction. -/
theorem escalation_equivalence_witness :
    MedicalExtraction.Valid exPlain ∧
      ((assess exPlain).escalate = true ↔
        ((assess exPlain).acuity ≤ 2 ∨ (assess exPlain).triggered_risk_flags ≠ [])) :=
  ⟨by decide, escalation_equivalence exPlain (by decide)⟩

/-- C2: if `evaluate_risk_signals` returns a non-empty list and
`compute_acuity` over the combined red-flag list is greater than 2, the
acuity of the assessment returned by `assess` is exactly 2. -/
theorem risk_clamp_law (e : MedicalExtraction)
    (h1 : evaluate_risk_signals e.risk_signals ≠ [])
    (h2 : 2 < compute_acuity e (combined_red_flags e)) :
    (assess e).acuity = 2 := by
  rw [assess_acuity, if_pos ⟨List.length_pos.mpr h1, h2⟩]

/-- Witness for C2: suicidal-ideation conviction 0.25 triggers a risk
flag, the keyword path alone gives acuity 3, and the clamp yields 2. -/
theorem risk_clamp_law_witness :
    evaluate_risk_signals exRisk.risk_signals ≠ [] ∧
      2 < compute_acuity exRisk (combined_red_flags exRisk) ∧
      (assess exRisk).acuity = 2 :=
  ⟨by decide, by decide, risk_clamp_law exRisk (by decide) (by decide)⟩

/-- C4: `disposition = "escalate"` iff `escalate = true`;
`disposition = "discharge"` only if `acuity ≥ 4` and the returned
`red_flags` list is empty; in every other case `disposition = "continue"`. -/
theorem disposition_rules (e : MedicalExtraction) (_hv : e.Valid) :
    ((assess e).disposition = "escalate" ↔ (assess e).escalate = true) ∧
    ((assess e).disposition = "discharge" →
      4 ≤ (assess e).acuity ∧ (assess e).red_flags = []) ∧
    ((assess e).escalate = false →
      ¬ (4 ≤ (assess e).acuity ∧ (assess e).red_flags = []) →
      (assess e).disposition = "continue") := by
  rw [assess_disposition, assess_red_flags]
  by_cases hesc : (assess e).escalate = true
  · rw [if_pos hesc]
    refine ⟨by simp [hesc], fun h => absurd h (by decide), fun h0 _ => ?_⟩
    rw [hesc] at h0
    exact absurd h0 (by decide)
  · rw [if_neg hesc]
    by_cases hd : 4 ≤ (assess e).acuity ∧ combined_red_flags e = []
    · rw [if_pos hd]
      exact ⟨by simp [hesc], fun _ => hd, fun _ hcon => absurd hd hcon⟩
    · rw [if_neg hd]
      exact ⟨by simp [hesc], fun h => absurd h (by decide), fun _ _ => rfl⟩

/-- Witness for C4 at the all-default extraction. -/
theorem disposition_rules_witness :
    MedicalExtraction.Valid exPlain ∧
      (((assess exPlain).disposition = "escalate" ↔ (assess exPlain).escalate = true) ∧
       ((assess exPlain).disposition = "discharge" →
         4 ≤ (assess exPlain).acuity ∧ (assess exPlain).red_flags = []) ∧
       ((assess exPlain).escalate = false →
         ¬ (4 ≤ (assess exPlain).acuity ∧ (assess exPlain).red_flags = []) →
         (assess exPlain).disposition = "continue")) :=
  ⟨by decide, disposition_rules exPlain (by decide)⟩

/-- C6: `compute_acuity` implements the five ordered decision tiers with
first-match-wins semantics — it returns 1 iff tier 1 fires, 2 iff tier 1
fails and tier 2 fires, 3 iff tiers 1-2 fail and tier 3 fires, 4 iff
tiers 1-3 fail and tier 4 fires, and 5 iff no tier fires (the tier
conditions being exactly those of `tier1`-`tier4`). -/
theorem compute_acuity_tier_characterisation (e : MedicalExtraction)
    (fl : List RedFlag) :
    (compute_acuity e fl = 1 ↔ tier1 e fl) ∧
    (compute_acuity e fl = 2 ↔ (¬ tier1 e fl ∧ tier2 e fl)) ∧
    (compute_acuity e fl = 3 ↔ (¬ tier1 e fl ∧ ¬ tier2 e fl ∧ tier3 e fl)) ∧
    (compute_acuity e fl = 4 ↔
      (¬ tier1 e fl ∧ ¬ tier2 e fl ∧ ¬ tier3 e fl ∧ tier4 e)) ∧
    (compute_acuity e fl = 5 ↔
      (¬ tier1 e fl ∧ ¬ tier2 e fl ∧ ¬ tier3 e fl ∧ ¬ tier4 e)) := by
  rw [compute_acuity_eq]
  by_cases h1 : tier1 e fl <;> by_cases h2 : tier2 e fl <;>
    by_cases h3 : tier3 e fl <;> by_cases h4 : tier4 e <;>
    simp [h1, h2, h3, h4]

/-- C9: an unresponsive patient is always assessed at acuity exactly 1
with `escalate = true`, whatever the other fields; and the risk-signal
clamp step never changes an acuity that is already at most 2. -/
theorem unresponsive_forces_acuity_one :
    (∀ e : MedicalExtraction, e.Valid → e.mental_status = "unresponsive" →
      (assess e).acuity = 1 ∧ (assess e).escalate = true) ∧
    (∀ e : MedicalExtraction,
      compute_acuity e (combined_red_flags e) ≤ 2 →
      (assess e).acuity = compute_acuity e (combined_red_flags e)) := by
  constructor
  · intro e _ hms
    have h1 : compute_acuity e (combined_red_flags e) = 1 :=
      compute_acuity_of_tier1 (Or.inl hms)
    constructor
    · rw [assess_acuity, h1, if_neg]
      rintro ⟨-, h⟩
      omega
    · rw [assess_escalate_iff]
      exact Or.inl (by omega)
  · intro e h
    rw [assess_acuity, if_neg]
    rintro ⟨-, h2⟩
    omega

/-- C3: acuity is monotonic with danger — appending red flags never
raises the number `compute_acuity` returns, and appending one more
symptom, or raising one risk signal's conviction to at least its
threshold, never increases the acuity number returned by `assess`. -/
theorem acuity_monotonic_with_danger :
    (∀ (e : MedicalExtraction) (F extra : List RedFlag),
      compute_acuity e (F ++ extra) ≤ compute_acuity e F) ∧
    (∀ (e : MedicalExtraction) (s : String),
      (assess (addSymptom e s)).acuity ≤ (assess e).acuity) ∧
    (∀ (e : MedicalExtraction) (k : RiskSignalKind) (c : ℚ),
      thresholdFor k.flagType ≤ c →
      (assess (setConvictionE e k c)).acuity ≤ (assess e).acuity) := by
  refine ⟨?_, ?_, ?_⟩
  · intro e F extra
    exact compute_acuity_mono rfl rfl rfl le_rfl
      (fun f hf => List.mem_append_left extra hf)
      (by rw [List.length_append]; omega)
  · intro e s
    have hev : evaluate_risk_signals (addSymptom e s).risk_signals =
        evaluate_risk_signals e.risk_signals := rfl
    have hsub : combined_red_flags e <+ combined_red_flags (addSymptom e s) := by
      unfold combined_red_flags
      rw [hev]
      exact (detect_red_flags_sublist_addSymptom e s).append (Sublist.refl _)
    have hsym : e.symptoms.length ≤ (addSymptom e s).symptoms.length := by
      simp only [addSymptom, List.length_append]
      omega
    have hac : compute_acuity (addSymptom e s) (combined_red_flags (addSymptom e s)) ≤
        compute_acuity e (combined_red_flags e) :=
      compute_acuity_mono rfl rfl rfl hsym (fun f hf => hsub.subset hf) hsub.length_le
    rw [assess_acuity, assess_acuity, hev]
    split_ifs <;> omega
  · intro e k c hc
    have hdet : detect_red_flags (setConvictionE e k c) = detect_red_flags e := rfl
    have hsub : combined_red_flags e <+ combined_red_flags (setConvictionE e k c) := by
      unfold combined_red_flags
      rw [hdet]
      exact (Sublist.refl _).append
        (evaluate_setConviction_map_sublist e.risk_signals k c hc)
    have hac : compute_acuity (setConvictionE e k c)
          (combined_red_flags (setConvictionE e k c)) ≤
        compute_acuity e (combined_red_flags e) :=
      compute_acuity_mono rfl rfl rfl le_rfl (fun f hf => hsub.subset hf)
        hsub.length_le
    have hne : 0 < (evaluate_risk_signals (setConvictionE e k c).risk_signals).length :=
      List.length_pos.mpr (evaluate_setConviction_ne_nil e.risk_signals k c hc)
    rw [assess_acuity, assess_acuity]
    split_ifs <;> omega

/-- Witness for C3 at concrete inputs: an extra red flag, an extra
symptom, and the can-breathe conviction raised to its threshold 0.5. -/
theorem acuity_monotonic_with_danger_witness :
    (compute_acuity exPlain
        ([] ++ [{ name := "seizure", reason := "Neurological emergency" }]) ≤
      compute_acuity exPlain []) ∧
    ((assess (addSymptom exPlain "dizzy")).acuity ≤ (assess exPlain).acuity) ∧
    (thresholdFor RiskSignalKind.canBreathe.flagType ≤ q0_5 ∧
      (assess (setConvictionE exPlain RiskSignalKind.canBreathe q0_5)).acuity ≤
        (assess exPlain).acuity) :=
  ⟨acuity_monotonic_with_danger.1 exPlain [] _,
   acuity_monotonic_with_danger.2.1 exPlain "dizzy",
   by decide,
   acuity_monotonic_with_danger.2.2 exPlain RiskSignalKind.canBreathe q0_5 (by decide)⟩

/-- C5: `evaluate_risk_signals` emits exactly the rows of the fixed
risk-signal table whose trigger condition holds — danger indicator set,
or conviction ≥ the tabulated threshold (inclusive) — each flag carrying
the raw signal value as a string, the conviction, the threshold used and
the fixed explanation, in table order. -/
theorem evaluate_risk_signals_matches_spec_table (rs : RiskSignals) :
    evaluate_risk_signals rs = evaluate_risk_signals_spec rs := by
  unfold evaluate_risk_signals evaluate_risk_signals_spec risk_signal_spec_table
  rw [← q0_2_eq, ← q0_4_eq, ← q0_5_eq]
  simp only [show thresholdFor CriticalRedFlagType.SUICIDAL_IDEATION = q0_2 from rfl,
    show thresholdFor CriticalRedFlagType.SELF_HARM = q0_2 from rfl,
    show thresholdFor CriticalRedFlagType.HOMICIDAL_IDEATION = q0_4 from rfl,
    show thresholdFor CriticalRedFlagType.CANNOT_BREATHE = q0_5 from rfl,
    show thresholdFor CriticalRedFlagType.CHEST_PAIN = q0_5 from rfl,
    show thresholdFor CriticalRedFlagType.NEURO_DEFICIT = q0_5 from rfl,
    show thresholdFor CriticalRedFlagType.BLEEDING_UNCONTROLLED = q0_5 from rfl,
    show explanationFor CriticalRedFlagType.SUICIDAL_IDEATION =
      "Patient may be expressing suicidal thoughts; policy requires immediate escalation." from rfl,
    show explanationFor CriticalRedFlagType.SELF_HARM =
      "Patient may be expressing intent to self-harm; policy requires immediate escalation." from rfl,
    show explanationFor CriticalRedFlagType.HOMICIDAL_IDEATION =
      "Patient may be expressing intent to harm others; policy requires immediate escalation." from rfl,
    show explanationFor CriticalRedFlagType.CANNOT_BREATHE =
      "Patient reports difficulty breathing; this is a potential emergency." from rfl,
    show explanationFor CriticalRedFlagType.CHEST_PAIN =
      "Patient reports chest pain; cardiac emergency must be ruled out." from rfl,
    show explanationFor CriticalRedFlagType.NEURO_DEFICIT =
      "Patient shows signs of neurological deficit; possible stroke or emergency." from rfl,
    show explanationFor CriticalRedFlagType.BLEEDING_UNCONTROLLED =
      "Patient reports uncontrolled bleeding; hemorrhage risk." from rfl]
  by_cases c1 : rs.suicidal_ideation = true ∨ q0_2 ≤ rs.suicidal_ideation_conviction <;>
  by_cases c2 : rs.self_harm_intent = true ∨ q0_2 ≤ rs.self_harm_intent_conviction <;>
  by_cases c3 : rs.homicidal_ideation = true ∨ q0_4 ≤ rs.homicidal_ideation_conviction <;>
  by_cases c4 : rs.can_breathe = "no" ∨ q0_5 ≤ rs.can_breathe_conviction <;>
  by_cases c5 : rs.chest_pain = "yes" ∨ q0_5 ≤ rs.chest_pain_conviction <;>
  by_cases c6 : rs.neuro_deficit = "yes" ∨ q0_5 ≤ rs.neuro_deficit_conviction <;>
  by_cases c7 : rs.bleeding_uncontrolled = "yes" ∨
      q0_5 ≤ rs.bleeding_uncontrolled_conviction <;>
  simp [c1, c2, c3, c4, c5, c6, c7, List.filterMap_cons]

/-- Witness for C9 at the unresponsive extraction (Scenario B). -/
theorem unresponsive_forces_acuity_one_witness :
    (exUnresponsive.Valid ∧ exUnresponsive.mental_status = "unresponsive" ∧
      ((assess exUnresponsive).acuity = 1 ∧ (assess exUnresponsive).escalate = true)) ∧
    (compute_acuity exUnresponsive (combined_red_flags exUnresponsive) ≤ 2 ∧
      (assess exUnresponsive).acuity =
        compute_acuity exUnresponsive (combined_red_flags exUnresponsive)) :=
  ⟨⟨by decide, by decide,
    unresponsive_forces_acuity_one.1 exUnresponsive (by decide) (by decide)⟩,
   by decide, unresponsive_forces_acuity_one.2 exUnresponsive (by decide)⟩

/-- C7 counterexample: the search string "chest pain and choking"
contains a chest-pain keyword and a breathing-distress keyword of the
keyword table ("choking", reason "Respiratory distress"), yet
`detect_red_flags` does not emit `chest_pain_with_sob` — the code only
checks for "shortness of breath" / "difficulty breathing". -/
theorem chest_combo_claim_counterexample :
    (∃ k ∈ chest_pain_keywords, strContains (searchableText exChestChoking) k) ∧
    (∃ k ∈ breathing_distress_keywords,
      strContains (searchableText exChestChoking) k) ∧
    ¬ (∃ f ∈ detect_red_flags exChestChoking, f.name = "chest_pain_with_sob") := by
  refine ⟨⟨"chest pain", by decide, by decide⟩, ⟨"choking", by decide, by decide⟩, ?_⟩
  decide

/-- C7 amended: if the lowercase search string contains the keyword
"chest pain" together with "shortness of breath" or "difficulty
breathing" (the two breathing-distress keywords the combination rule
actually checks), `detect_red_flags` emits the synthetic flag
`chest_pain_with_sob`; that name is in the scorer's life-threat set, and
any flag list containing it makes `compute_acuity` return 1. -/
theorem chest_combo_amended :
    (∀ e : MedicalExtraction,
      strContains (searchableText e) "chest pain" →
      (strContains (searchableText e) "shortness of breath" ∨
       strContains (searchableText e) "difficulty breathing") →
      ∃ f ∈ detect_red_flags e, f.name = "chest_pain_with_sob") ∧
    "chest_pain_with_sob" ∈ life_threat_flags ∧
    (∀ (e : MedicalExtraction) (fl : List RedFlag),
      (∃ f ∈ fl, f.name = "chest_pain_with_sob") → compute_acuity e fl = 1) := by
  refine ⟨?_, by decide, ?_⟩
  · intro e h1 h2
    have hmem : ∃ f ∈ combo_flag (searchableText e),
        f.name = "chest_pain_with_sob" := by
      unfold combo_flag
      rw [if_pos ⟨h1, h2⟩]
      exact ⟨_, List.mem_singleton_self _, rfl⟩
    obtain ⟨f, hf, hfn⟩ := hmem
    refine ⟨f, ?_, hfn⟩
    unfold detect_red_flags
    exact List.mem_append_left _ (List.mem_append_left _ (List.mem_append_right _ hf))
  · rintro e fl ⟨f, hf, hname⟩
    refine compute_acuity_of_tier1 (Or.inr ⟨f, hf, ?_⟩)
    rw [hname]
    decide

/-- Witness for the amended C7 at Scenario A (chest pain + shortness of
breath). -/
theorem chest_combo_amended_witness :
    (strContains (searchableText exChestSob) "chest pain" ∧
      (strContains (searchableText exChestSob) "shortness of breath" ∨
       strContains (searchableText exChestSob) "difficulty breathing") ∧
      (∃ f ∈ detect_red_flags exChestSob, f.name = "chest_pain_with_sob")) ∧
    ((∃ f ∈ combined_red_flags exChestSob, f.name = "chest_pain_with_sob") ∧
      compute_acuity exChestSob (combined_red_flags exChestSob) = 1) :=
  ⟨⟨by decide, by decide,
    chest_combo_amended.1 exChestSob (by decide) (by decide)⟩,
   by decide,
   chest_combo_amended.2.2 exChestSob (combined_red_flags exChestSob) (by decide)⟩

/-- C8: each vital-sign range check of `detect_red_flags` is independent
and fires exactly when the vital is present and out of range; when all
vitals are absent no vital-sign flag is emitted. -/
theorem vital_sign_checks (e : MedicalExtraction) :
    ("tachycardia" ∈ (detect_red_flags e).map RedFlag.name ↔
      optHolds e.vitals.heart_rate (fun hr => 150 < hr)) ∧
    ("bradycardia" ∈ (detect_red_flags e).map RedFlag.name ↔
      optHolds e.vitals.heart_rate (fun hr => hr < 40)) ∧
    ("hypoxia" ∈ (detect_red_flags e).map RedFlag.name ↔
      optHolds e.vitals.oxygen_saturation (fun o2 => o2 < 90)) ∧
    ("high_fever" ∈ (detect_red_flags e).map RedFlag.name ↔
      optHolds e.vitals.temperature_f (fun t => 104 ≤ t)) ∧
    ("hypotension" ∈ (detect_red_flags e).map RedFlag.name ↔
      optHolds e.vitals.blood_pressure_systolic (fun bp => bp < 80)) ∧
    ((e.vitals.heart_rate = none ∧ e.vitals.blood_pressure_systolic = none ∧
      e.vitals.blood_pressure_diastolic = none ∧ e.vitals.respiratory_rate = none ∧
      e.vitals.temperature_f = none ∧ e.vitals.oxygen_saturation = none) →
      ∀ f ∈ detect_red_flags e,
        f.name ∉ ["tachycardia", "bradycardia", "hypoxia", "high_fever",
          "hypotension"]) := by
  obtain ⟨v1, v2, v3, v4, v5⟩ := vital_sign_flags_names e.vitals
  refine ⟨(mem_detect_vital_name e (by decide) (by decide) (by decide)).trans v1,
    (mem_detect_vital_name e (by decide) (by decide) (by decide)).trans v2,
    (mem_detect_vital_name e (by decide) (by decide) (by decide)).trans v3,
    (mem_detect_vital_name e (by decide) (by decide) (by decide)).trans v4,
    (mem_detect_vital_name e (by decide) (by decide) (by decide)).trans v5, ?_⟩
  rintro ⟨h1, h2, -, -, h5, h6⟩ f hf hmem
  have hnm : f.name ∈ (detect_red_flags e).map RedFlag.name :=
    List.mem_map.mpr ⟨f, hf, rfl⟩
  simp only [List.mem_cons, List.not_mem_nil, or_false] at hmem
  rcases hmem with h | h | h | h | h <;> rw [h] at hnm
  · have := ((mem_detect_vital_name e (by decide) (by decide) (by decide)).trans v1).mp hnm
    rw [h1] at this
    simp [optHolds] at this
  · have := ((mem_detect_vital_name e (by decide) (by decide) (by decide)).trans v2).mp hnm
    rw [h1] at this
    simp [optHolds] at this
  · have := ((mem_detect_vital_name e (by decide) (by decide) (by decide)).trans v3).mp hnm
    rw [h6] at this
    simp [optHolds] at this
  · have := ((mem_detect_vital_name e (by decide) (by decide) (by decide)).trans v4).mp hnm
    rw [h5] at this
    simp [optHolds] at this
  · have := ((mem_detect_vital_name e (by decide) (by decide) (by decide)).trans v5).mp hnm
    rw [h2] at this
    simp [optHolds] at this

/-- Witness for C8 at the all-default extraction (all vitals absent). -/
theorem vital_sign_checks_witness :
    ("tachycardia" ∈ (detect_red_flags exPlain).map RedFlag.name ↔
      optHolds exPlain.vitals.heart_rate (fun hr => 150 < hr)) ∧
    (∀ f ∈ detect_red_flags exPlain,
      f.name ∉ ["tachycardia", "bradycardia", "hypoxia", "high_fever",
        "hypotension"]) :=
  ⟨(vital_sign_checks exPlain).1,
   (vital_sign_checks exPlain).2.2.2.2.2 (by decide)⟩

/-- C10: the escalation reason of the assessment is empty iff no risk
flag triggered; when risk flags triggered it is the space-joined
concatenation of their fixed explanations, and hence non-empty. -/
theorem escalation_reason_spec (e : MedicalExtraction) (_hv : e.Valid) :
    ((assess e).escalation_reason = "" ↔ (assess e).triggered_risk_flags = []) ∧
    ((assess e).triggered_risk_flags ≠ [] →
      (assess e).escalation_reason =
        joinWith " " (((assess e).triggered_risk_flags).map
          fun t => t.human_explanation) ∧
      (assess e).escalation_reason ≠ "") := by
  rw [assess_escalation_reason, assess_triggered]
  by_cases hr : evaluate_risk_signals e.risk_signals = []
  · simp [hr]
  · rw [if_neg hr]
    have hjoin : joinWith " " ((evaluate_risk_signals e.risk_signals).map
        fun trf => trf.human_explanation) ≠ "" := by
      apply joinWith_ne_empty
      · simp [hr]
      · intro x hx
        simp only [List.mem_map] at hx
        obtain ⟨t, ht, rfl⟩ := hx
        exact evaluate_explanation_ne_empty e.risk_signals t ht
    exact ⟨⟨fun h0 => absurd h0 hjoin, fun h0 => absurd h0 hr⟩,
      fun _ => ⟨rfl, hjoin⟩⟩

/-- Witness for C10 at the Scenario E extraction (one triggered flag). -/
theorem escalation_reason_spec_witness :
    MedicalExtraction.Valid exRisk ∧
      (((assess exRisk).escalation_reason = "" ↔
        (assess exRisk).triggered_risk_flags = []) ∧
       ((assess exRisk).triggered_risk_flags ≠ [] →
         (assess exRisk).escalation_reason =
           joinWith " " (((assess exRisk).triggered_risk_flags).map
             fun t => t.human_explanation) ∧
         (assess exRisk).escalation_reason ≠ "")) :=
  ⟨by decide, escalation_reason_spec exRisk (by decide)⟩

end Triage
